import Mathlib

/-!
Shallow embedding of the concurrent geometry-accumulation and render-dispatch
core of the radiant-rs 2D sprite engine, together with proofs of the spec
claims about it.

The embedding follows `src/core/layer.rs` and `src/core/renderer.rs`.
Scalar `f32` values are modelled as rationals (no claim depends on
floating-point rounding); Rust panics are modelled as the `.error`
branch of `Except`, carrying the shared state left behind at the
moment of the panic.  Mutation through `&self` is modelled by explicit
state passing.
-/

namespace Radiant

/-- Modelled from the spec: the maths module (`Mat4`, `Mat4Stack`,
`viewport`) is not under `src/`.  Matrices are opaque values here — no
claim computes with their entries; `viewport` records the dimensions
used to seed a layer's initial view matrix, as §3 Lifecycle describes. -/
inductive Mat4 where
  | identity
  | viewport (width height : ℚ)
  | other (tag : ℕ)
deriving DecidableEq

/-- Source `Color(pub f32, pub f32, pub f32, pub f32)` from `src/color.rs`,
four channels red, green, blue, alpha. -/
structure Color where
  r : ℚ
  g : ℚ
  b : ℚ
  a : ℚ
deriving DecidableEq

/-- Source `Color::WHITE`, all channels one. -/
def Color.WHITE : Color := ⟨1, 1, 1, 1⟩

/-- Modelled from the spec: `blendmode.rs` is not under `src/`.  §3:
a blend factor for one side of a (source, destination) pair. -/
inductive BlendFactor where
  | zero
  | one
  | srcAlpha
  | oneMinusSrcAlpha
  | dstAlpha
  | oneMinusDstAlpha
deriving DecidableEq

/-- Modelled from the spec: §3 BlendMode equation
(add, subtract, reverse-subtract, min, max). -/
inductive BlendEquation where
  | add
  | subtract
  | reverseSubtract
  | min
  | max
deriving DecidableEq

/-- Modelled from the spec: §3 BlendMode — two independent (color, alpha)
factor pairs (source-factor, destination-factor) plus an equation. -/
structure BlendMode where
  colorSrc : BlendFactor
  colorDst : BlendFactor
  alphaSrc : BlendFactor
  alphaDst : BlendFactor
  equation : BlendEquation
deriving DecidableEq

namespace blendmodes

/-- Modelled from the spec: the predefined alpha-blend preset
(`blendmodes::ALPHA`), the default blend mode of a new layer. -/
def ALPHA : BlendMode :=
  ⟨BlendFactor.srcAlpha, BlendFactor.oneMinusSrcAlpha,
   BlendFactor.one, BlendFactor.oneMinusSrcAlpha, BlendEquation.add⟩

end blendmodes

/-- Opaque compiled shader program handle (§1 non-goals: programs are
opaque compiled units). -/
structure Program where
  id : ℕ
deriving DecidableEq

/-- Modelled from the spec: the maths `Rect` (not under `src/`), a UV
rectangle given by its top-left and bottom-right corners, with the four
corner accessors `add_rect` reads. -/
structure Rect where
  top_left : ℚ × ℚ
  bottom_right : ℚ × ℚ
deriving DecidableEq

/-- Top-right corner of a `Rect`. -/
def Rect.top_right (r : Rect) : ℚ × ℚ := (r.bottom_right.1, r.top_left.2)

/-- Bottom-left corner of a `Rect`. -/
def Rect.bottom_left (r : Rect) : ℚ × ℚ := (r.top_left.1, r.bottom_right.2)

/-- Source `Vertex` from `src/graphics`/`core`: fixed-layout record — 2D
position, 2D offset-from-anchor, rotation, color, bucket id, texture id,
texture UV, component flags (§3 Data model). -/
structure Vertex where
  position : ℚ × ℚ
  offset : ℚ × ℚ
  rotation : ℚ
  color : Color
  bucket_id : ℕ
  texture_id : ℕ
  texture_uv : ℚ × ℚ
  components : ℕ
deriving DecidableEq

/-- Modelled from the spec: `avec::AVec` (the ConcurrentAppendBuffer of
§4.1) is not under `src/`.  Sequentially, `map n` reserves `n` contiguous
slots at the current logical length which the caller then fills,
`clear` resets the logical length to zero, and `len` is the logical
length.  Capacity tracking and blocking growth are not modelled: no
claim mentions them, and growth never changes the logical contents. -/
structure AVec (T : Type) where
  data : List T
deriving DecidableEq

/-- Logical length of the buffer. -/
def AVec.len {T : Type} (v : AVec T) : ℕ := v.data.length

/-- Source `clear()`: resets the logical length to zero (§4.1). -/
def AVec.clear {T : Type} (_v : AVec T) : AVec T := ⟨[]⟩

/-- A completed `map n` reservation followed by the caller's `set` of all
`n` slots: the block appears contiguously at the old logical length. -/
def AVec.appendBlock {T : Type} (v : AVec T) (block : List T) : AVec T :=
  ⟨v.data ++ block⟩

/-- Source `LayerContents` from `src/core/layer.rs`: the state shared among all
clones of a layer — vertex buffer, dirty flag, generation counter,
layer id. -/
structure LayerContents where
  vertex_data : AVec Vertex
  dirty : Bool
  generation : ℕ
  layer_id : ℕ
deriving DecidableEq

/-- Per-clone independent state of a `Layer` (`src/core/layer.rs`):
view matrix, model matrix, blend mode, color multiplier, optional
program.  The `Mat4Stack` mutexes hold a current matrix; only that
current value is modelled. -/
structure LayerLocal where
  view_matrix : Mat4
  model_matrix : Mat4
  blend : BlendMode
  color : Color
  program : Option Program
deriving DecidableEq

/-- A `Layer`: per-clone state plus (a handle to) the shared contents.
Sharing across clones is modelled by `LayerFamily` below. -/
structure Layer where
  view_matrix : Mat4
  model_matrix : Mat4
  blend : BlendMode
  color : Color
  contents : LayerContents
  program : Option Program
deriving DecidableEq

/-- The argument bundle of `Layer::add_rect` beyond the generation tag:
bucket id, texture id, component flags, UV rect, position, anchor,
dimensions, color, rotation, scale. -/
structure QuadParams where
  bucket_id : ℕ
  texture_id : ℕ
  components : ℕ
  uv : Rect
  pos : ℚ × ℚ
  anchor : ℚ × ℚ
  dim : ℚ × ℚ
  color : Color
  rotation : ℚ
  scale : ℚ × ℚ
deriving DecidableEq

namespace Layer

/-- Source `Layer::set_dirty` (layer.rs:289): store `value` into the shared
dirty flag. -/
def set_dirty (c : LayerContents) (value : Bool) : LayerContents :=
  { c with dirty := value }

/-- Source `Layer::set_generation` (layer.rs:283): swaps the stored generation
for the incoming one and returns whether the write is accepted —
`previous == generation || generation == 0 || previous == 0`.  The swap
happens unconditionally; the returned state reflects it. -/
def set_generation (c : LayerContents) (generation : ℕ) :
    Bool × LayerContents :=
  let previous := c.generation
  (previous == generation || generation == 0 || previous == 0,
   { c with generation := generation })

/-- The four corner vertices `add_rect` writes into its reserved block,
in source order: top-left, top-right, bottom-left, bottom-right
(layer.rs:186-228). -/
def quadVertices (p : QuadParams) : List Vertex :=
  let offset_x0 := -p.anchor.1 * p.scale.1
  let offset_x1 := (p.dim.1 - p.anchor.1) * p.scale.1
  let offset_y0 := -p.anchor.2 * p.scale.2
  let offset_y1 := (p.dim.2 - p.anchor.2) * p.scale.2
  [ { position := p.pos, offset := (offset_x0, offset_y0),
      rotation := p.rotation, color := p.color, bucket_id := p.bucket_id,
      texture_id := p.texture_id, texture_uv := p.uv.top_left,
      components := p.components },
    { position := p.pos, offset := (offset_x1, offset_y0),
      rotation := p.rotation, color := p.color, bucket_id := p.bucket_id,
      texture_id := p.texture_id, texture_uv := p.uv.top_right,
      components := p.components },
    { position := p.pos, offset := (offset_x0, offset_y1),
      rotation := p.rotation, color := p.color, bucket_id := p.bucket_id,
      texture_id := p.texture_id, texture_uv := p.uv.bottom_left,
      components := p.components },
    { position := p.pos, offset := (offset_x1, offset_y1),
      rotation := p.rotation, color := p.color, bucket_id := p.bucket_id,
      texture_id := p.texture_id, texture_uv := p.uv.bottom_right,
      components := p.components } ]

/-- The `map(4)` reservation plus the four `set` calls of `add_rect`:
the quad's vertices are appended as one contiguous block. -/
def appendQuad (c : LayerContents) (p : QuadParams) : LayerContents :=
  { c with vertex_data := c.vertex_data.appendBlock (quadVertices p) }

/-- Source `Layer::add_rect` (layer.rs:165-229): sets the dirty flag, then —
when a generation tag is supplied — performs the generation check via
`set_generation`, panicking on rejection (modelled as `.error` carrying
the shared state at the panic); otherwise reserves four slots and fills
the four corners. -/
def add_rect (c : LayerContents) (generation : Option ℕ) (p : QuadParams) :
    Except LayerContents LayerContents :=
  let c1 := set_dirty c true
  match generation with
  | some g =>
      let r := set_generation c1 g
      if r.1 then Except.ok (appendQuad r.2 p) else Except.error r.2
  | none => Except.ok (appendQuad c1 p)

/-- Source `Layer::clear` (layer.rs:142-147): sets the dirty flag, unsets the
generation, clears the vertex buffer. -/
def clear (c : LayerContents) : LayerContents :=
  let c1 := set_dirty c true
  let c2 := (set_generation c1 0).2
  { c2 with vertex_data := c2.vertex_data.clear }

/-- Source `Layer::len` (layer.rs:155-157): number of sprites currently stored,
`vertex_data.len() / 4`. -/
def len (c : LayerContents) : ℕ := c.vertex_data.len / 4

/-- Source `Layer::undirty` (layer.rs:247-249): atomically reads-and-clears the
dirty flag, returning whether it was set. -/
def undirty (c : LayerContents) : Bool × LayerContents :=
  (c.dirty, set_dirty c false)

/-- Source `Layer::create` (layer.rs:252-267): viewport view matrix seeded from
the dimensions, identity model matrix, ALPHA blend, white color, fresh
shared contents with an empty buffer, dirty flag set, generation unset,
and the next process-wide layer id. -/
def create (dimensions : ℚ × ℚ) (program : Option Program)
    (next_layer_id : ℕ) : Layer :=
  { view_matrix := Mat4.viewport dimensions.1 dimensions.2,
    model_matrix := Mat4.identity,
    blend := blendmodes.ALPHA,
    color := Color.WHITE,
    contents :=
      { vertex_data := ⟨[]⟩, dirty := true, generation := 0,
        layer_id := next_layer_id },
    program := program }

end Layer

/-- One `add_rect` call: an optional generation tag and the quad
parameters. -/
abbrev QuadCall := Option ℕ × QuadParams

/-- A sequence of `add_rect` calls applied to shared layer contents —
the panic of a rejected call aborts the sequence. -/
def runCalls (c : LayerContents) (calls : List QuadCall) :
    Except LayerContents LayerContents :=
  calls.foldlM (fun s q => Layer.add_rect s q.1 q.2) c

/-- A family of layer clones: one shared `LayerContents` and the
per-clone independent state of each clone (§3: cloning shares contents,
not transform/blend/color state). -/
structure LayerFamily where
  contents : LayerContents
  locals : List LayerLocal
deriving DecidableEq

instance : Inhabited LayerLocal :=
  ⟨{ view_matrix := Mat4.identity, model_matrix := Mat4.identity,
     blend := blendmodes.ALPHA, color := Color.WHITE, program := none }⟩

namespace LayerFamily

/-- Source `Layer::create_clone` (layer.rs:270-279) through clone `i`: the new
clone copies clone `i`'s current matrices, blend mode and color, takes
the given program, and shares the same contents. -/
def createClone (fam : LayerFamily) (i : ℕ) (program : Option Program) :
    LayerFamily :=
  { fam with
    locals := fam.locals ++
      [{ fam.locals.getD i default with program := program }] }

/-- Source `Layer::len` observed through clone `i`: reads the shared contents
(the clone index does not enter the computation — that is the point). -/
def lenVia (fam : LayerFamily) (_i : ℕ) : ℕ := Layer.len fam.contents

/-- Source `Layer::add_rect` called through clone `i`: writes to the shared
contents only. -/
def addRectVia (fam : LayerFamily) (_i : ℕ) (generation : Option ℕ)
    (p : QuadParams) : Except LayerFamily LayerFamily :=
  match Layer.add_rect fam.contents generation p with
  | Except.ok c => Except.ok { fam with contents := c }
  | Except.error c => Except.error { fam with contents := c }

/-- Source `Layer::set_view_matrix` called through clone `i`: replaces only
clone `i`'s view matrix. -/
def setViewMatrixVia (fam : LayerFamily) (i : ℕ) (m : Mat4) : LayerFamily :=
  { fam with
    locals := fam.locals.set i
      { fam.locals.getD i default with view_matrix := m } }

/-- Source `Layer::set_model_matrix` called through clone `i`. -/
def setModelMatrixVia (fam : LayerFamily) (i : ℕ) (m : Mat4) : LayerFamily :=
  { fam with
    locals := fam.locals.set i
      { fam.locals.getD i default with model_matrix := m } }

/-- Source `Layer::set_blendmode` called through clone `i`. -/
def setBlendmodeVia (fam : LayerFamily) (i : ℕ) (bm : BlendMode) :
    LayerFamily :=
  { fam with
    locals := fam.locals.set i
      { fam.locals.getD i default with blend := bm } }

/-- Source `Layer::set_color` called through clone `i`. -/
def setColorVia (fam : LayerFamily) (i : ℕ) (col : Color) : LayerFamily :=
  { fam with
    locals := fam.locals.set i
      { fam.locals.getD i default with color := col } }

end LayerFamily

/-- Source `RenderTarget` (§3): destination surface — none, the display frame,
or an offscreen texture, identified by an opaque handle. -/
inductive RenderTarget where
  | none
  | display (handle : ℕ)
  | texture (handle : ℕ)
deriving DecidableEq

/-- The renderer state the claims concern: the render-target stack
(`Rc<RefCell<Vec<RenderTarget>>>` in renderer.rs; the last element is
the current target).  The GL context and default program carry no claim
content and are omitted. -/
structure Renderer where
  targets : List RenderTarget
deriving DecidableEq

namespace Renderer

/-- Source `Renderer::new` (renderer.rs:41-44): the target stack starts with
exactly the display frame. -/
def new (display : ℕ) : Renderer := ⟨[RenderTarget.display display]⟩

/-- Source `Renderer::headless` (renderer.rs:47-49): the target stack starts
empty (`Vec::new()`). -/
def headless : Renderer := ⟨[]⟩

/-- Source `Renderer::push_target` (renderer.rs:273-275): `Vec::push`. -/
def push_target (r : Renderer) (t : RenderTarget) : Renderer :=
  ⟨r.targets ++ [t]⟩

/-- Source `Renderer::pop_target` (renderer.rs:278-280): `Vec::pop`. -/
def pop_target (r : Renderer) : Renderer := ⟨r.targets.dropLast⟩

/-- The current target, `self.target.borrow().last()` — `none` when the
stack is empty, in which case the source's `.unwrap()` panics. -/
def currentTarget (r : Renderer) : Option RenderTarget :=
  r.targets.getLast?

/-- Source `Renderer::render_to` (renderer.rs:157-162): push the target, run
the caller scope, pop.  The scope is modelled as fallible (`.error`
models a Rust panic unwinding out of the closure, carrying the renderer
state at the unwind); the source has no unwind guard, so `pop_target`
runs only on the normal path. -/
def render_to (r : Renderer) (target : RenderTarget)
    (draw_func : Renderer → Except Renderer Renderer) :
    Except Renderer Renderer :=
  let r1 := r.push_target target
  match draw_func r1 with
  | Except.ok r2 => Except.ok r2.pop_target
  | Except.error e => Except.error e

end Renderer

/-- A postprocessor (core/mod.rs trait `Postprocessor`): its declared
intermediate target and its `process` and `draw` hooks, each of which
receives the renderer and may issue draws against it. -/
structure PostprocessorModel where
  target : RenderTarget
  process : Renderer → Renderer
  draw : Renderer → Renderer

namespace Renderer

/-- Source `Renderer::postprocess` (renderer.rs:193-206): push the processor's
target, run the caller scope, invoke `process`, pop, then invoke
`draw`. -/
def postprocess (r : Renderer) (pp : PostprocessorModel)
    (draw_func : Renderer → Renderer) : Renderer :=
  let r1 := r.push_target pp.target
  let r2 := draw_func r1
  let r3 := pp.process r2
  let r4 := r3.pop_target
  pp.draw r4

/-- Source `Renderer::bucket_info` (renderer.rs:263-270).  `ln2` is
`ceil(log2(max(width, height)))`, modelled exactly by `Nat.clog 2`
(the source computes it through `f32::log2().ceil()`); the bucket id is
`max(1, ln2 - 4 + 1)` computed in `i32`, the padded size is
`2^(bucket_id + 4 - 1)`.  The assertion `bucket_id < NUM_BUCKETS`
(context.rs, not under `src/` — the configured maximum bucket count is
taken as a parameter) is modelled as `none` on failure. -/
def bucket_info (numBuckets : ℕ) (width height : ℕ) : Option (ℕ × ℕ) :=
  let ln2 : ℕ := Nat.clog 2 (Max.max width height)
  let bucket_id : ℕ := (Max.max 1 ((ln2 : ℤ) - 4 + 1)).toNat
  let size : ℕ := 2 ^ (bucket_id + 4 - 1)
  if bucket_id < numBuckets then some (bucket_id, size) else none

end Renderer

/-- States reachable from a renderer through its public operations,
outside any open push/pop pair.  `clear`, `draw_layer`, `rect`, `fill`,
`copy_from` and `copy_rect_from` read the stack top without modifying
the stack (they are covered by reflexivity and transitivity);
`scoped` covers a completed `render_to`/`postprocess` whose caller scope
itself only used public operations, hence ran from the pushed state to
some reachable state before the final pop. -/
inductive Reaches : Renderer → Renderer → Prop where
  | refl (r : Renderer) : Reaches r r
  | trans {a b c : Renderer} : Reaches a b → Reaches b c → Reaches a c
  | scopedOp {a b : Renderer} (t : RenderTarget) :
      Reaches (a.push_target t) b → Reaches a b.pop_target

/-- All four vertices of the block share the quad's position, rotation,
color, bucket id, texture id and component flags. -/
def sharedQuadFields (vs : List Vertex) (p : QuadParams) : Prop :=
  ∀ v ∈ vs, v.position = p.pos ∧ v.rotation = p.rotation ∧
    v.color = p.color ∧ v.bucket_id = p.bucket_id ∧
    v.texture_id = p.texture_id ∧ v.components = p.components

/-- The block's per-corner fields, in order top-left, top-right,
bottom-left, bottom-right: the UV of the corresponding rect corner and
the anchor/scale-derived offset of that corner. -/
def cornerQuadFields (vs : List Vertex) (p : QuadParams) : Prop :=
  vs.map Vertex.texture_uv =
    [p.uv.top_left, p.uv.top_right, p.uv.bottom_left, p.uv.bottom_right] ∧
  vs.map Vertex.offset =
    [(-p.anchor.1 * p.scale.1, -p.anchor.2 * p.scale.2),
     ((p.dim.1 - p.anchor.1) * p.scale.1, -p.anchor.2 * p.scale.2),
     (-p.anchor.1 * p.scale.1, (p.dim.2 - p.anchor.2) * p.scale.2),
     ((p.dim.1 - p.anchor.1) * p.scale.1, (p.dim.2 - p.anchor.2) * p.scale.2)]

/-- Parameters of a degenerate unit quad, used to instantiate theorems
at a concrete input. -/
def pZero : QuadParams :=
  { bucket_id := 1, texture_id := 0, components := 0,
    uv := ⟨(0, 0), (1, 1)⟩, pos := (0, 0), anchor := (0, 0),
    dim := (1, 1), color := Color.WHITE, rotation := 0, scale := (1, 1) }

/-- Concrete shared contents carrying generation 1 and a clear dirty
flag, used to instantiate theorems at a concrete input. -/
def cGen1 : LayerContents := ⟨⟨[]⟩, false, 1, 7⟩

section LayerLemmas

/-- A successful `add_rect` appends exactly the four corner vertices to
the shared buffer. -/
theorem add_rect_ok_data {c c' : LayerContents} {g : Option ℕ}
    {p : QuadParams} (h : Layer.add_rect c g p = Except.ok c') :
    c'.vertex_data.data = c.vertex_data.data ++ Layer.quadVertices p := by
  cases g with
  | none =>
      simp only [Layer.add_rect, Except.ok.injEq] at h
      subst h
      rfl
  | some g =>
      simp only [Layer.add_rect] at h
      split at h
      · cases h
        rfl
      · cases h

/-- A successful `add_rect` leaves the layer id unchanged. -/
theorem add_rect_ok_layer_id {c c' : LayerContents} {g : Option ℕ}
    {p : QuadParams} (h : Layer.add_rect c g p = Except.ok c') :
    c'.layer_id = c.layer_id := by
  cases g with
  | none =>
      simp only [Layer.add_rect, Except.ok.injEq] at h
      subst h
      rfl
  | some g =>
      simp only [Layer.add_rect] at h
      split at h
      · cases h
        rfl
      · cases h

/-- A successful sequence of `add_rect` calls appends, call by call, the
flattened corner blocks of the calls to the shared buffer. -/
theorem runCalls_ok_data (calls : List QuadCall) (c0 c : LayerContents)
    (h : runCalls c0 calls = Except.ok c) :
    c.vertex_data.data =
      c0.vertex_data.data ++
        calls.flatMap (fun q => Layer.quadVertices q.2) := by
  induction calls generalizing c0 with
  | nil =>
      simp only [runCalls, List.foldlM_nil, pure, Except.pure,
        Except.ok.injEq] at h
      subst h
      simp
  | cons q rest ih =>
      rw [runCalls, List.foldlM_cons] at h
      cases hq : Layer.add_rect c0 q.1 q.2 with
      | error e =>
          rw [hq] at h
          simp only [bind, Except.bind] at h
          cases h
      | ok c1 =>
          rw [hq] at h
          simp only [bind, Except.bind] at h
          have hrest : runCalls c1 rest = Except.ok c := h
          have hd := ih c1 hrest
          rw [hd, add_rect_ok_data hq]
          simp [List.flatMap_cons]

/-- Each corner block has exactly four vertices. -/
theorem quadVertices_length (p : QuadParams) :
    (Layer.quadVertices p).length = 4 := by
  simp [Layer.quadVertices]

/-- The flattened corner blocks of `n` calls hold `4 * n` vertices. -/
theorem flatMap_quad_length (calls : List QuadCall) :
    (calls.flatMap fun q => Layer.quadVertices q.2).length =
      4 * calls.length := by
  induction calls with
  | nil => simp
  | cons q rest ih =>
      simp only [List.flatMap_cons, List.length_append, ih,
        quadVertices_length, List.length_cons]
      ring

/-- In the flattened blocks, the window of four slots starting at
`4 * k` is exactly the corner block of call `k`. -/
theorem flatMap_quad_window (calls : List QuadCall) (k : ℕ)
    (hk : k < calls.length) :
    (((calls.flatMap fun q => Layer.quadVertices q.2).drop (4 * k)).take 4)
      = Layer.quadVertices (calls.get ⟨k, hk⟩).2 := by
  induction calls generalizing k with
  | nil => simp at hk
  | cons q rest ih =>
      cases k with
      | zero =>
          simp only [List.flatMap_cons, Nat.mul_zero, List.drop_zero,
            List.get]
          rw [List.take_left' (quadVertices_length q.2)]
      | succ k' =>
          have harith : 4 * (k' + 1) = (Layer.quadVertices q.2).length
              + 4 * k' := by
            rw [quadVertices_length]
            ring
          simp only [List.flatMap_cons, harith, List.drop_append, List.get]
          exact ih k' (by simpa using hk)

/-- The corner block of any call satisfies the shared-field and
per-corner field descriptions. -/
theorem quadVertices_shape (p : QuadParams) :
    sharedQuadFields (Layer.quadVertices p) p ∧
      cornerQuadFields (Layer.quadVertices p) p := by
  constructor
  · intro v hv
    simp only [Layer.quadVertices, List.mem_cons, List.not_mem_nil,
      or_false] at hv
    rcases hv with h | h | h | h <;> subst h <;> exact ⟨rfl, rfl, rfl, rfl, rfl, rfl⟩
  · constructor <;> simp [Layer.quadVertices]

end LayerLemmas

/-- C10: a freshly created layer (via `new`/`with_program`, both of which
call `Layer::create`) is already marked dirty before any quad has been
appended: its buffer is empty, its dirty flag is set, and the first
`undirty()` returns `true` and clears the flag. -/
theorem C10_fresh_layer_dirty (dimensions : ℚ × ℚ)
    (program : Option Program) (lid : ℕ) :
    (Layer.create dimensions program lid).contents.dirty = true ∧
    Layer.len (Layer.create dimensions program lid).contents = 0 ∧
    (Layer.undirty (Layer.create dimensions program lid).contents).1
      = true ∧
    (Layer.undirty (Layer.create dimensions program lid).contents).2.dirty
      = false := by
  refine ⟨rfl, ?_, rfl, rfl⟩
  simp [Layer.create, Layer.len, AVec.len]

/-- C2: a generation-tagged write with incoming tag `G` against stored
generation `P` is accepted if and only if `P = G`, `P = 0`, or `G = 0`;
`add_rect` with any other combination takes the panic branch (modelled
as `Except.error`) instead of returning normally. -/
theorem C2_generation_check (c : LayerContents) (g : ℕ) (p : QuadParams) :
    ((Layer.set_generation c g).1 = true ↔
      (c.generation = g ∨ c.generation = 0 ∨ g = 0)) ∧
    ((Layer.add_rect c (some g) p).isOk = true ↔
      (c.generation = g ∨ c.generation = 0 ∨ g = 0)) := by
  constructor
  · simp [Layer.set_generation]
    tauto
  · simp only [Layer.add_rect, Layer.set_generation, Layer.set_dirty]
    by_cases hcond : (c.generation == g || g == 0 || c.generation == 0)
      = true
    · simp only [hcond, if_true, Except.isOk, Except.toBool]
      simp only [Bool.or_eq_true, beq_iff_eq] at hcond
      simp
      tauto
    · simp only [hcond, if_false, Except.isOk, Except.toBool]
      simp only [Bool.or_eq_true, beq_iff_eq] at hcond
      push_neg at hcond
      simp
      tauto

/-- C3 counterexample: the claim says `clear()` resets the dirty flag,
but on contents whose dirty flag is clear, `clear()` sets the flag (the
source stores `true`, marking the cleared layer as needing upload). -/
theorem C3_clear_dirty_cex :
    ¬ ((Layer.clear cGen1).dirty = false) := by
  decide

/-- C3 (amended): after `Layer::clear()` the length is `0` and the
generation is unset, and a write tagged with any generation then
succeeds — but the dirty flag is set (`true`), not cleared. -/
theorem C3_clear_resets (c : LayerContents) (g : ℕ) (p : QuadParams) :
    Layer.len (Layer.clear c) = 0 ∧
    (Layer.clear c).generation = 0 ∧
    (Layer.clear c).dirty = true ∧
    (Layer.add_rect (Layer.clear c) (some g) p).isOk = true := by
  refine ⟨?_, rfl, rfl, ?_⟩
  · simp [Layer.clear, Layer.len, Layer.set_dirty, Layer.set_generation,
      AVec.clear, AVec.len]
  · simp [Layer.clear, Layer.add_rect, Layer.set_dirty,
      Layer.set_generation, AVec.clear, Except.isOk, Except.toBool]

/-- C7 counterexample: on contents with stored generation `1` and a
clear dirty flag, the rejected write tagged `2` leaves behind contents
whose generation was overwritten with the incoming tag and whose dirty
flag was set — the shared state is not the same as before the call. -/
theorem C7_rejected_write_cex :
    Layer.add_rect cGen1 (some 2) pZero =
      Except.error (⟨⟨[]⟩, true, 2, 7⟩ : LayerContents) ∧
    ((⟨⟨[]⟩, true, 2, 7⟩ : LayerContents).generation ≠ cGen1.generation ∧
     (⟨⟨[]⟩, true, 2, 7⟩ : LayerContents).dirty ≠ cGen1.dirty) := by
  refine ⟨?_, by decide, by decide⟩
  rfl

/-- C7 (amended): a write rejected by the generation check leaves the
buffer contents (hence `len()`) and the layer id unchanged, but before
panicking it has already set the dirty flag and swapped the stored
generation to the incoming tag. -/
theorem C7_rejected_write_state (c c' : LayerContents) (g : ℕ)
    (p : QuadParams)
    (h : Layer.add_rect c (some g) p = Except.error c') :
    c'.vertex_data = c.vertex_data ∧
    Layer.len c' = Layer.len c ∧
    c'.dirty = true ∧
    c'.generation = g ∧
    c'.layer_id = c.layer_id := by
  simp only [Layer.add_rect] at h
  split at h
  · cases h
  · cases h
    exact ⟨rfl, rfl, rfl, rfl, rfl⟩

/-- C7 witness: the amended statement holds at the concrete rejected
write of the counterexample input. -/
theorem C7_rejected_write_state_witness :
    (⟨⟨[]⟩, true, 2, 7⟩ : LayerContents).vertex_data = cGen1.vertex_data ∧
    Layer.len (⟨⟨[]⟩, true, 2, 7⟩ : LayerContents) = Layer.len cGen1 ∧
    (⟨⟨[]⟩, true, 2, 7⟩ : LayerContents).dirty = true ∧
    (⟨⟨[]⟩, true, 2, 7⟩ : LayerContents).generation = 2 ∧
    (⟨⟨[]⟩, true, 2, 7⟩ : LayerContents).layer_id = cGen1.layer_id :=
  C7_rejected_write_state cGen1 ⟨⟨[]⟩, true, 2, 7⟩ 2 pZero rfl

/-- C5: for sizes `w, h ≥ 1`, `bucket_info` returns
`bucket_id = max(1, ceil(log2(max(w, h))) - 3)` with padded size
`2^(bucket_id + 3)` whenever that bucket id is below the configured
maximum bucket count, and fails the assertion (no value returned)
otherwise; in particular `(1, 1) ↦ (1, 16)` and `(64, 64) ↦ (3, 64)`. -/
theorem C5_bucket_info (numBuckets w h : ℕ) (_hw : 1 ≤ w) (_hh : 1 ≤ h) :
    (Max.max 1 (Nat.clog 2 (Max.max w h) - 3) < numBuckets →
      Renderer.bucket_info numBuckets w h =
        some (Max.max 1 (Nat.clog 2 (Max.max w h) - 3),
          2 ^ (Max.max 1 (Nat.clog 2 (Max.max w h) - 3) + 3))) ∧
    (¬ Max.max 1 (Nat.clog 2 (Max.max w h) - 3) < numBuckets →
      Renderer.bucket_info numBuckets w h = none) ∧
    (1 < numBuckets →
      Renderer.bucket_info numBuckets 1 1 = some (1, 16)) ∧
    (3 < numBuckets →
      Renderer.bucket_info numBuckets 64 64 = some (3, 64)) := by
  have hbid : ∀ ln2 : ℕ,
      (Max.max 1 ((ln2 : ℤ) - 4 + 1)).toNat = Max.max 1 (ln2 - 3) := by
    intro ln2
    omega
  have main : ∀ nb w' h' : ℕ,
      Max.max 1 (Nat.clog 2 (Max.max w' h') - 3) < nb →
      Renderer.bucket_info nb w' h' =
        some (Max.max 1 (Nat.clog 2 (Max.max w' h') - 3),
          2 ^ (Max.max 1 (Nat.clog 2 (Max.max w' h') - 3) + 3)) := by
    intro nb w' h' hlt
    simp only [Renderer.bucket_info, hbid, if_pos hlt]
    have harith : Max.max 1 (Nat.clog 2 (Max.max w' h') - 3) + 4 - 1 =
        Max.max 1 (Nat.clog 2 (Max.max w' h') - 3) + 3 := by omega
    rw [harith]
  have hc1 : Nat.clog 2 (Max.max 1 1) = 0 := by
    simp [Nat.clog_one_right]
  have hc64 : Nat.clog 2 (Max.max 64 64) = 6 := by
    have h64 : Max.max 64 64 = 2 ^ 6 := by norm_num
    rw [h64, Nat.clog_pow 2 6 (by norm_num)]
  refine ⟨main numBuckets w h, ?_, ?_, ?_⟩
  · intro hge
    simp only [Renderer.bucket_info, hbid, if_neg hge]
  · intro h1
    have hb1 : Max.max 1 (Nat.clog 2 (Max.max 1 1) - 3) = 1 := by
      rw [hc1]
      omega
    have := main numBuckets 1 1 (by rw [hb1]; exact h1)
    rw [this, hb1]
    norm_num
  · intro h3
    have hb64 : Max.max 1 (Nat.clog 2 (Max.max 64 64) - 3) = 3 := by
      rw [hc64]
      omega
    have := main numBuckets 64 64 (by rw [hb64]; exact h3)
    rw [this, hb64]
    norm_num

/-- C5 witness: the general statement instantiated at
`numBuckets = 16`, `(w, h) = (64, 64)`. -/
theorem C5_bucket_info_witness :
    (1 ≤ 64 ∧ 1 ≤ 64) ∧
    ((Max.max 1 (Nat.clog 2 (Max.max 64 64) - 3) < 16 →
      Renderer.bucket_info 16 64 64 =
        some (Max.max 1 (Nat.clog 2 (Max.max 64 64) - 3),
          2 ^ (Max.max 1 (Nat.clog 2 (Max.max 64 64) - 3) + 3))) ∧
    (¬ Max.max 1 (Nat.clog 2 (Max.max 64 64) - 3) < 16 →
      Renderer.bucket_info 16 64 64 = none) ∧
    (1 < 16 → Renderer.bucket_info 16 1 1 = some (1, 16)) ∧
    (3 < 16 → Renderer.bucket_info 16 64 64 = some (3, 64))) :=
  ⟨⟨by decide, by decide⟩, C5_bucket_info 16 64 64 (by decide) (by decide)⟩

/-- Public operations leave the target stack exactly as they found it:
passive operations read the top only, and a completed scoped
redirection pops what it pushed. -/
theorem Reaches.targets_eq {a b : Renderer} (h : Reaches a b) :
    b.targets = a.targets := by
  induction h with
  | refl r => rfl
  | trans hab hbc ih₁ ih₂ => rw [ih₂, ih₁]
  | scopedOp t hscope ih =>
      simp only [Renderer.pop_target, ih, Renderer.push_target,
        List.dropLast_concat]

/-- C6 counterexample: the claim says every renderer's target stack is
initialized with exactly one entry, but `Renderer::headless` starts
with an empty stack, on which the current-target read (`last().unwrap()`
in `clear`/`draw_layer`/`copy_from`/`copy_rect_from`) is undefined. -/
theorem C6_headless_cex :
    Renderer.headless.targets.length ≠ 1 ∧
    Renderer.currentTarget Renderer.headless = none := by
  decide

/-- C6 (amended): a renderer created via `Renderer::new` starts with
exactly the display on its stack, and every state reachable through the
public operations outside an open push/pop pair still has exactly that
stack — in particular it is never empty and the current-target read is
defined.  A headless renderer, by contrast, starts empty. -/
theorem C6_stack_invariant (d : ℕ) (r : Renderer)
    (h : Reaches (Renderer.new d) r) :
    (Renderer.new d).targets = [RenderTarget.display d] ∧
    r.targets = [RenderTarget.display d] ∧
    r.targets ≠ [] ∧
    Renderer.currentTarget r = some (RenderTarget.display d) := by
  have ht : r.targets = [RenderTarget.display d] := h.targets_eq
  refine ⟨rfl, ht, by rw [ht]; simp, ?_⟩
  rw [Renderer.currentTarget, ht]
  rfl

/-- C6 witness: the amended statement at the freshly created renderer
for display `0`. -/
theorem C6_stack_invariant_witness :
    (Renderer.new 0).targets = [RenderTarget.display 0] ∧
    (Renderer.new 0).targets = [RenderTarget.display 0] ∧
    (Renderer.new 0).targets ≠ [] ∧
    Renderer.currentTarget (Renderer.new 0)
      = some (RenderTarget.display 0) :=
  C6_stack_invariant 0 (Renderer.new 0) (Reaches.refl _)

/-- C4 counterexample: the claim says the pop is unconditional, holding
on error exits too — but when the scope panics (exits via `.error`),
`render_to` propagates the unwind without executing `pop_target`, so the
pushed target is still on the stack and the previous target is not
restored. -/
theorem C4_render_to_cex :
    Renderer.render_to ⟨[RenderTarget.display 0]⟩ (RenderTarget.texture 1)
        (fun s => Except.error s) =
      Except.error ⟨[RenderTarget.display 0, RenderTarget.texture 1]⟩ ∧
    (⟨[RenderTarget.display 0, RenderTarget.texture 1]⟩ : Renderer).targets
      ≠ (⟨[RenderTarget.display 0]⟩ : Renderer).targets := by
  exact ⟨rfl, by decide⟩

/-- C4 (amended): `render_to` pushes the target, making it the current
target for draws issued inside the scope; when the scope exits normally
(and, using only public operations, leaves the stack as it found it),
the pop runs and the previously active stack is restored.  When the
scope exits by panic, the pop does not run (see the counterexample). -/
theorem C4_render_to_scoped (r : Renderer) (t : RenderTarget)
    (f : Renderer → Except Renderer Renderer) (r2 : Renderer)
    (hok : f (r.push_target t) = Except.ok r2)
    (hbal : r2.targets = (r.push_target t).targets) :
    Renderer.currentTarget (r.push_target t) = some t ∧
    Renderer.render_to r t f = Except.ok r2.pop_target ∧
    r2.pop_target.targets = r.targets := by
  refine ⟨?_, ?_, ?_⟩
  · simp only [Renderer.currentTarget, Renderer.push_target,
      List.getLast?_concat]
  · simp only [Renderer.render_to, hok]
  · simp only [Renderer.pop_target, hbal, Renderer.push_target,
      List.dropLast_concat]

/-- C4 witness: the amended statement at a concrete renderer and an
immediately returning scope. -/
theorem C4_render_to_scoped_witness :
    ((fun s => (Except.ok s : Except Renderer Renderer))
        ((⟨[RenderTarget.display 0]⟩ : Renderer).push_target
          (RenderTarget.texture 1)) =
      Except.ok ((⟨[RenderTarget.display 0]⟩ : Renderer).push_target
          (RenderTarget.texture 1))) ∧
    (Renderer.currentTarget
        ((⟨[RenderTarget.display 0]⟩ : Renderer).push_target
          (RenderTarget.texture 1)) = some (RenderTarget.texture 1) ∧
    Renderer.render_to ⟨[RenderTarget.display 0]⟩ (RenderTarget.texture 1)
        (fun s => (Except.ok s : Except Renderer Renderer)) =
      Except.ok ((⟨[RenderTarget.display 0]⟩ : Renderer).push_target
          (RenderTarget.texture 1)).pop_target ∧
    ((⟨[RenderTarget.display 0]⟩ : Renderer).push_target
        (RenderTarget.texture 1)).pop_target.targets =
      (⟨[RenderTarget.display 0]⟩ : Renderer).targets) :=
  ⟨rfl, C4_render_to_scoped ⟨[RenderTarget.display 0]⟩
    (RenderTarget.texture 1)
    (fun s => (Except.ok s : Except Renderer Renderer)) _ rfl rfl⟩

/-- C8: `postprocess` performs exactly push-target, caller scope,
`process` hook, pop, `draw` hook, in that order (first conjunct: the
result is that composition); the scope and the `process` hook run with
the processor's intermediate target current, and the `draw` hook runs
with the previously active stack already restored (given that the scope
and `process`, which only issue draws against the current target, leave
the stack as they found it). -/
theorem C8_postprocess_order (r : Renderer) (pp : PostprocessorModel)
    (f : Renderer → Renderer)
    (hf : (f (r.push_target pp.target)).targets
      = (r.push_target pp.target).targets)
    (hp : (pp.process (f (r.push_target pp.target))).targets
      = (f (r.push_target pp.target)).targets) :
    Renderer.postprocess r pp f =
      pp.draw (Renderer.pop_target
        (pp.process (f (r.push_target pp.target)))) ∧
    Renderer.currentTarget (r.push_target pp.target) = some pp.target ∧
    Renderer.currentTarget (pp.process (f (r.push_target pp.target)))
      = some pp.target ∧
    (Renderer.pop_target (pp.process (f (r.push_target pp.target)))).targets
      = r.targets := by
  refine ⟨rfl, ?_, ?_, ?_⟩
  · simp only [Renderer.currentTarget, Renderer.push_target,
      List.getLast?_concat]
  · simp only [Renderer.currentTarget]
    rw [hp, hf]
    simp only [Renderer.push_target, List.getLast?_concat]
  · simp only [Renderer.pop_target]
    rw [hp, hf]
    simp only [Renderer.push_target, List.dropLast_concat]

/-- C8 witness: the statement at a concrete renderer and a
postprocessor whose hooks and scope are the identity. -/
theorem C8_postprocess_order_witness :
    ((fun s => s)
        ((⟨[RenderTarget.display 0]⟩ : Renderer).push_target
          (RenderTarget.texture 2))).targets =
      ((⟨[RenderTarget.display 0]⟩ : Renderer).push_target
        (RenderTarget.texture 2)).targets ∧
    (Renderer.postprocess ⟨[RenderTarget.display 0]⟩
        ⟨RenderTarget.texture 2, fun s => s, fun s => s⟩ (fun s => s) =
      (⟨RenderTarget.texture 2, fun s => s, fun s => s⟩
          : PostprocessorModel).draw
        (Renderer.pop_target
          (((⟨RenderTarget.texture 2, fun s => s, fun s => s⟩
              : PostprocessorModel)).process
            ((fun s => s)
              ((⟨[RenderTarget.display 0]⟩ : Renderer).push_target
                (RenderTarget.texture 2))))) ∧
    Renderer.currentTarget
        ((⟨[RenderTarget.display 0]⟩ : Renderer).push_target
          (RenderTarget.texture 2)) = some (RenderTarget.texture 2) ∧
    Renderer.currentTarget
        (((⟨RenderTarget.texture 2, fun s => s, fun s => s⟩
            : PostprocessorModel)).process
          ((fun s => s)
            ((⟨[RenderTarget.display 0]⟩ : Renderer).push_target
              (RenderTarget.texture 2)))) = some (RenderTarget.texture 2) ∧
    (Renderer.pop_target
        (((⟨RenderTarget.texture 2, fun s => s, fun s => s⟩
            : PostprocessorModel)).process
          ((fun s => s)
            ((⟨[RenderTarget.display 0]⟩ : Renderer).push_target
              (RenderTarget.texture 2))))).targets =
      (⟨[RenderTarget.display 0]⟩ : Renderer).targets) :=
  ⟨rfl, C8_postprocess_order ⟨[RenderTarget.display 0]⟩
    ⟨RenderTarget.texture 2, fun s => s, fun s => s⟩ (fun s => s) rfl rfl⟩

/-- C1: for every sequence of `add_rect` calls on one layer starting
from creation, all of which complete, the final `len()` is the number
of quads added, the underlying vertex count is four times that, and the
four contiguous vertex slots of quad `k` (at positions `4k .. 4k+3`)
are its top-left, top-right, bottom-left, bottom-right corners, all
sharing the call's position, rotation, color, bucket id, texture id and
components and differing only in per-corner UV and anchor/scale-derived
offset.  (Clones share the same contents buffer — see `C9` — so calls
through any clone are calls on these shared contents.) -/
theorem C1_quad_sequence (dimensions : ℚ × ℚ) (program : Option Program)
    (lid : ℕ) (calls : List QuadCall) (c : LayerContents)
    (h : runCalls (Layer.create dimensions program lid).contents calls
      = Except.ok c) :
    Layer.len c = calls.length ∧
    c.vertex_data.len = 4 * calls.length ∧
    ∀ k : ℕ, (hk : k < calls.length) →
      ((c.vertex_data.data.drop (4 * k)).take 4
        = Layer.quadVertices (calls.get ⟨k, hk⟩).2 ∧
      sharedQuadFields ((c.vertex_data.data.drop (4 * k)).take 4)
        (calls.get ⟨k, hk⟩).2 ∧
      cornerQuadFields ((c.vertex_data.data.drop (4 * k)).take 4)
        (calls.get ⟨k, hk⟩).2) := by
  have hd := runCalls_ok_data calls _ c h
  have hd' : c.vertex_data.data
      = calls.flatMap (fun q => Layer.quadVertices q.2) := by
    simpa [Layer.create] using hd
  have hlen : c.vertex_data.len = 4 * calls.length := by
    rw [AVec.len, hd', flatMap_quad_length]
  refine ⟨?_, hlen, ?_⟩
  · rw [Layer.len, hlen]
    omega
  · intro k hk
    have hwin := flatMap_quad_window calls k hk
    rw [hd', hwin]
    exact ⟨rfl, (quadVertices_shape _).1, (quadVertices_shape _).2⟩

/-- The shared contents after one successful untagged `add_rect` on a
fresh layer with id `5`: used to instantiate `C1_quad_sequence`. -/
def cW1 : LayerContents := ⟨⟨Layer.quadVertices pZero⟩, true, 0, 5⟩

/-- C1 witness: the statement at the one-call sequence
`[(none, pZero)]` on a freshly created layer. -/
theorem C1_quad_sequence_witness :
    (runCalls (Layer.create (0, 0) none 5).contents [(none, pZero)]
      = Except.ok cW1) ∧
    (Layer.len cW1 = [((none : Option ℕ), pZero)].length ∧
    cW1.vertex_data.len = 4 * [((none : Option ℕ), pZero)].length ∧
    ∀ k : ℕ, (hk : k < [((none : Option ℕ), pZero)].length) →
      ((cW1.vertex_data.data.drop (4 * k)).take 4
        = Layer.quadVertices
            (([((none : Option ℕ), pZero)]).get ⟨k, hk⟩).2 ∧
      sharedQuadFields ((cW1.vertex_data.data.drop (4 * k)).take 4)
        (([((none : Option ℕ), pZero)]).get ⟨k, hk⟩).2 ∧
      cornerQuadFields ((cW1.vertex_data.data.drop (4 * k)).take 4)
        (([((none : Option ℕ), pZero)]).get ⟨k, hk⟩).2)) :=
  ⟨rfl, C1_quad_sequence (0, 0) none 5 [(none, pZero)] cW1 rfl⟩

/-- Helper: `getD` at an index other than the one being written is unchanged by
`List.set`. -/
theorem getD_set_ne {α : Type} [Inhabited α] (l : List α) (i j : ℕ)
    (e : α) (hij : i ≠ j) :
    (l.set i e).getD j default = l.getD j default := by
  simp only [List.getD_eq_getElem?_getD, List.getElem?_set_ne hij]

/-- The per-clone state of clone `i`, as read through the family. -/
def LayerFamily.localVia (fam : LayerFamily) (i : ℕ) : LayerLocal :=
  fam.locals.getD i default

/-- C9: a clone created from a layer shares that layer's contents
buffer, so a quad appended through either clone index is observed as
`len() + 1` through every clone index; while setting the clone's view
matrix, model matrix, blend mode or color leaves the original clone's
state untouched, and vice versa. -/
theorem C9_clone_shared_contents
    (fam : LayerFamily) (i : ℕ) (prog : Option Program)
    (m : Mat4) (bm : BlendMode) (col : Color)
    (g : Option ℕ) (p : QuadParams) (j j' : ℕ) (fam2 : LayerFamily)
    (hi : i < fam.locals.length)
    (hadd : (LayerFamily.createClone fam i prog).addRectVia j g p
      = Except.ok fam2) :
    (LayerFamily.createClone fam i prog).contents = fam.contents ∧
    LayerFamily.lenVia fam2 j' =
      LayerFamily.lenVia (LayerFamily.createClone fam i prog) j' + 1 ∧
    ((LayerFamily.createClone fam i prog).setViewMatrixVia
        fam.locals.length m).localVia i
      = (LayerFamily.createClone fam i prog).localVia i ∧
    ((LayerFamily.createClone fam i prog).setViewMatrixVia i m).localVia
        fam.locals.length
      = (LayerFamily.createClone fam i prog).localVia fam.locals.length ∧
    ((LayerFamily.createClone fam i prog).setModelMatrixVia
        fam.locals.length m).localVia i
      = (LayerFamily.createClone fam i prog).localVia i ∧
    ((LayerFamily.createClone fam i prog).setModelMatrixVia i m).localVia
        fam.locals.length
      = (LayerFamily.createClone fam i prog).localVia fam.locals.length ∧
    ((LayerFamily.createClone fam i prog).setBlendmodeVia
        fam.locals.length bm).localVia i
      = (LayerFamily.createClone fam i prog).localVia i ∧
    ((LayerFamily.createClone fam i prog).setBlendmodeVia i bm).localVia
        fam.locals.length
      = (LayerFamily.createClone fam i prog).localVia fam.locals.length ∧
    ((LayerFamily.createClone fam i prog).setColorVia
        fam.locals.length col).localVia i
      = (LayerFamily.createClone fam i prog).localVia i ∧
    ((LayerFamily.createClone fam i prog).setColorVia i col).localVia
        fam.locals.length
      = (LayerFamily.createClone fam i prog).localVia fam.locals.length
    := by
  have hne : fam.locals.length ≠ i := Nat.ne_of_gt hi
  have hne' : i ≠ fam.locals.length := Nat.ne_of_lt hi
  refine ⟨rfl, ?_, ?_, ?_, ?_, ?_, ?_, ?_, ?_, ?_⟩
  · cases hq : Layer.add_rect (LayerFamily.createClone fam i prog).contents
        g p with
    | error e =>
        rw [LayerFamily.addRectVia, hq] at hadd
        cases hadd
    | ok cnew =>
        rw [LayerFamily.addRectVia, hq] at hadd
        cases hadd
        have hdata := add_rect_ok_data hq
        simp only [LayerFamily.lenVia, Layer.len, AVec.len, hdata,
          List.length_append, quadVertices_length]
        exact Nat.add_div_right _ (by norm_num)
  all_goals
    simp only [LayerFamily.setViewMatrixVia, LayerFamily.setModelMatrixVia,
      LayerFamily.setBlendmodeVia, LayerFamily.setColorVia,
      LayerFamily.localVia]
  · exact getD_set_ne _ _ _ _ hne
  · exact getD_set_ne _ _ _ _ hne'
  · exact getD_set_ne _ _ _ _ hne
  · exact getD_set_ne _ _ _ _ hne'
  · exact getD_set_ne _ _ _ _ hne
  · exact getD_set_ne _ _ _ _ hne'
  · exact getD_set_ne _ _ _ _ hne
  · exact getD_set_ne _ _ _ _ hne'

/-- A one-clone family over empty contents with layer id `9`: used to
instantiate `C9_clone_shared_contents`. -/
def famW : LayerFamily := ⟨⟨⟨[]⟩, true, 0, 9⟩, [default]⟩

/-- Family `famW` after cloning clone `0` and appending one untagged quad. -/
def famW2 : LayerFamily :=
  ⟨⟨⟨Layer.quadVertices pZero⟩, true, 0, 9⟩, [default, default]⟩

/-- C9 witness: the statement at the concrete one-clone family `famW`,
its clone, and one successful untagged append. -/
theorem C9_clone_shared_contents_witness :
    (0 < famW.locals.length ∧
     (LayerFamily.createClone famW 0 none).addRectVia 0 none pZero
       = Except.ok famW2) ∧
    ((LayerFamily.createClone famW 0 none).contents = famW.contents ∧
    LayerFamily.lenVia famW2 0 =
      LayerFamily.lenVia (LayerFamily.createClone famW 0 none) 0 + 1 ∧
    ((LayerFamily.createClone famW 0 none).setViewMatrixVia
        famW.locals.length (Mat4.other 1)).localVia 0
      = (LayerFamily.createClone famW 0 none).localVia 0 ∧
    ((LayerFamily.createClone famW 0 none).setViewMatrixVia 0
        (Mat4.other 1)).localVia famW.locals.length
      = (LayerFamily.createClone famW 0 none).localVia
          famW.locals.length ∧
    ((LayerFamily.createClone famW 0 none).setModelMatrixVia
        famW.locals.length (Mat4.other 1)).localVia 0
      = (LayerFamily.createClone famW 0 none).localVia 0 ∧
    ((LayerFamily.createClone famW 0 none).setModelMatrixVia 0
        (Mat4.other 1)).localVia famW.locals.length
      = (LayerFamily.createClone famW 0 none).localVia
          famW.locals.length ∧
    ((LayerFamily.createClone famW 0 none).setBlendmodeVia
        famW.locals.length blendmodes.ALPHA).localVia 0
      = (LayerFamily.createClone famW 0 none).localVia 0 ∧
    ((LayerFamily.createClone famW 0 none).setBlendmodeVia 0
        blendmodes.ALPHA).localVia famW.locals.length
      = (LayerFamily.createClone famW 0 none).localVia
          famW.locals.length ∧
    ((LayerFamily.createClone famW 0 none).setColorVia
        famW.locals.length Color.WHITE).localVia 0
      = (LayerFamily.createClone famW 0 none).localVia 0 ∧
    ((LayerFamily.createClone famW 0 none).setColorVia 0
        Color.WHITE).localVia famW.locals.length
      = (LayerFamily.createClone famW 0 none).localVia
          famW.locals.length) :=
  ⟨⟨by decide, rfl⟩,
    C9_clone_shared_contents famW 0 none (Mat4.other 1) blendmodes.ALPHA
      Color.WHITE none pZero 0 0 famW2 (by decide) rfl⟩

end Radiant
